import Mathlib

/-!
# ANT+ heart-rate receiver: framing, handshake and telemetry merge

A shallow embedding of `main.go` of `philpearl/hr`.

Conventions of the embedding.

* A Go `byte` is a `Nat`; a byte slice is a `List Nat`, and `isBytes` says that
  every element is below 256.  Byte XOR is `^^^` on `Nat` (it never leaves the
  byte range), the `byte(...)` conversions are `% 256` and the `uint16` shifts
  of the source are reduced `% 65536`.
* A Go slice index `pkt[i]` is `index pkt i : Option Nat`; `none` is the runtime
  panic "index out of range".  `parsePacket` therefore returns
  `Option (packetInfo × Option Err)`: `none` is a panic, `some (pi, err)` is the
  Go pair of results.
* The USB endpoints are a deterministic transport: the `k`-th read leaves
  `iep k` in `buf[:n]`, reads and writes do not fail, and every write, read and
  sleep is appended to a trace.
-/

namespace HR

/-! ## Errors -/

/-- The error values built in `main.go`: the `fmt.Errorf` messages of
`parsePacket` (with their formatted arguments), the `*errorResponse` value and
the `errors.Wrap` of `configureAndOpenChannel`. -/
inductive Err where
  /-- Message `invalid packet length %d`. -/
  | invalidPacketLength (len : Nat)
  /-- Message `invalid checksum`. -/
  | invalidChecksum
  /-- Message `invalid sync byte %x`. -/
  | invalidSyncByte (b : Nat)
  /-- Message `unexpected packet length %d - should be %d`. -/
  | unexpectedPacketLength (len : Nat) (want : Nat)
  /-- Message `Incorrect length`. -/
  | incorrectLength
  /-- Message `Incorrect broadcast data length`. -/
  | incorrectBroadcastLength
  /-- The `*errorResponse` value. -/
  | errorResponse (channelID : Nat) (msgID : Nat) (code : Nat)
  /-- The result of `errors.Wrap(err, msg)` on a non-nil `err`. -/
  | wrap (inner : Err) (msg : String)
  /-- An error returned by a call outside `main.go` (USB endpoint, HTTP client). -/
  | foreign (msg : String)
  deriving DecidableEq, Repr

/-- The four errors raised by the framing checks of `parsePacket`
(lines 298-319). -/
def Err.isFraming : Err → Bool
  | .invalidPacketLength _ => true
  | .invalidChecksum => true
  | .invalidSyncByte _ => true
  | .unexpectedPacketLength _ _ => true
  | _ => false

/-- Go `errors.Wrap`: nil stays nil. -/
def errorsWrap (err : Option Err) (msg : String) : Option Err :=
  err.map (fun e => Err.wrap e msg)

/-! ## Bytes and slices -/

/-- Every element is a byte. -/
def isBytes (l : List Nat) : Bool := l.all (fun b => decide (b < 256))

/-- Go slice indexing `s[i]`; `none` is the out-of-range panic. -/
def index (s : List Nat) (i : Nat) : Option Nat := s[i]?

/-- The loop `for _, x := range s { sum ^= x }` started from `sum = 0`. -/
def xorAll (s : List Nat) : Nat := s.foldl (fun sum x => sum ^^^ x) 0

/-- Go `copy(dst, src)`: the first `min (len dst) (len src)` elements of `dst`
are replaced by those of `src`; the result is the new content of `dst`. -/
def copySlice (dst src : List Nat) : List Nat :=
  src.take dst.length ++ dst.drop src.length

/-! ## Packet construction (`send`, lines 259-268) -/

/-- The packet that `send` builds from `data` and hands to `ep.Write`. -/
def sendPacket (data : List Nat) : List Nat :=
  -- packet := make([]byte, len(data)+2)
  let packet := List.replicate (data.length + 2) 0
  -- packet[0] = 0xA4
  let packet := packet.set 0 0xA4
  -- copy(packet[1:], data)
  let packet := packet.take 1 ++ copySlice (packet.drop 1) data
  -- for _, x := range packet { sum ^= x }
  let sum := xorAll packet
  -- packet[len(packet)-1] = sum
  packet.set (packet.length - 1) sum

/-! ## Packet parsing (`parsePacket`, lines 291-378) -/

/-- Go `packetInfo`; the zero value is the default. -/
structure packetInfo where
  hr : Nat := 0
  deviceNumber : Nat := 0
  errorCode : Nat := 0
  manuID : Nat := 0
  serial : Nat := 0
  deriving DecidableEq, Repr

/-- Go `parsePacket`.  `none` is an index-out-of-range panic. -/
def parsePacket (pkt : List Nat) : Option (packetInfo × Option Err) :=
  let pi : packetInfo := {}
  if pkt.length < 4 ∨ pkt.length > 56 then
    some (pi, some (Err.invalidPacketLength pkt.length))
  else
  let xor := xorAll pkt
  if xor ≠ 0 then
    some (pi, some Err.invalidChecksum)
  else
  (index pkt 0).bind fun p0 =>
  if p0 ≠ 0xA4 then
    some (pi, some (Err.invalidSyncByte p0))
  else
  (index pkt 1).bind fun ll =>
  if pkt.length ≠ ll + 4 then
    some (pi, some (Err.unexpectedPacketLength pkt.length ((ll + 4) % 256)))
  else
  (index pkt 2).bind fun p2 =>
  if p2 = 0x40 then
    if ll ≠ 3 then
      some (pi, some Err.incorrectLength)
    else
    (index pkt 5).bind fun p5 =>
    let pi := { pi with errorCode := p5 }
    if pi.errorCode ≠ 0 then
      (index pkt 3).bind fun p3 =>
      (index pkt 4).bind fun p4 =>
      (index pkt 5).bind fun p5 =>
      some (pi, some (Err.errorResponse p3 p4 p5))
    else
      some (pi, none)
  else if p2 = 0x4E then
    if ll < 9 then
      some (pi, some Err.incorrectBroadcastLength)
    else
    (index pkt 4).bind fun p4 =>
    let pageNo := p4 &&& 0x7F
    -- switch pageNo { case 2: ... }
    (if pageNo = 2 then
      (index pkt 4).bind fun q4 =>
      let pi := { pi with manuID := q4 }
      (index pkt 5).bind fun q5 =>
      (index pkt 6).bind fun q6 =>
      some { pi with serial := q5 ||| ((q6 <<< 8) % 65536) }
    else
      some pi).bind fun pi =>
    (index pkt 11).bind fun p11 =>
    let pi := { pi with hr := p11 }
    if ll = 20 then
      (index pkt 15).bind fun p15 =>
      (index pkt 14).bind fun p14 =>
      let deviceNumber := p15 ||| ((p14 <<< 8) % 65536)
      some ({ pi with deviceNumber := deviceNumber }, none)
    else
      some (pi, none)
  else
    -- case 0x6F (start-up message) and default (the packet is printed)
    some (pi, none)

/-- The frame passes the four framing checks of `parsePacket`: the call returns
and its error, if any, is not a framing error. -/
def passesFraming (pkt : List Nat) : Bool :=
  match parsePacket pkt with
  | some (_, some e) => !e.isFraming
  | some (_, none) => true
  | none => false

/-- The conditions tested by the framing checks, lines 298-319: total size
between 4 and 56, XOR of all bytes 0, sync byte 0xA4, declared length byte
equal to the size minus 4. -/
def wellFormed (pkt : List Nat) : Bool :=
  decide (4 ≤ pkt.length) && decide (pkt.length ≤ 56) && decide (xorAll pkt = 0)
    && decide (pkt[0]? = some 0xA4) && decide (pkt[1]?.map (fun ll => ll + 4) = some pkt.length)

/-! ## Transport (`ant`, `send`, `sendAndWaitCxt`) -/

/-- What the program does to the outside world, in order. -/
inductive Event where
  /-- Call `ep.Write(packet)` on the out endpoint. -/
  | write (packet : List Nat)
  /-- Call `ReadContext` on the in endpoint. -/
  | read
  /-- Call `time.Sleep` for the given number of milliseconds. -/
  | sleep (ms : Nat)
  deriving DecidableEq, Repr

/-- Go `ant`, reduced to its two endpoints: `iep k` is the content `buf[:n]`
left by the `k`-th read, `reads` counts the reads done so far and `trace`
records the calls made. -/
structure ant where
  iep : Nat → List Nat
  reads : Nat := 0
  trace : List Event := []

/-- The call `ep.Write(packet)`: the packet goes out, the error is nil. -/
def epWrite (a : ant) (packet : List Nat) : ant × Option Err :=
  ({ a with trace := a.trace ++ [Event.write packet] }, none)

/-- The call `a.iep.ReadContext(cxt, buf)`: returns `buf[:n]` and a nil error. -/
def epRead (a : ant) : ant × List Nat × Option Err :=
  ({ a with reads := a.reads + 1, trace := a.trace ++ [Event.read] }, a.iep a.reads, none)

/-- The call `time.Sleep(ms * time.Millisecond)`. -/
def timeSleep (a : ant) (ms : Nat) : ant :=
  { a with trace := a.trace ++ [Event.sleep ms] }

/-- Go `send`: build the packet and write it to the out endpoint. -/
def send (a : ant) (data : List Nat) : ant × Option Err :=
  epWrite a (sendPacket data)

/-- Go `sendAndWaitCxt`: one write, one read, then `parsePacket` on what was
read.  The second component is `none` when `parsePacket` panics. -/
def sendAndWaitCxt (a : ant) (data : List Nat) : ant × Option (packetInfo × Option Err) :=
  match send a data with
  | (a, some err) => (a, some ({}, some err))
  | (a, none) =>
    -- buf := make([]byte, 56); n, err := a.iep.ReadContext(cxt, buf)
    match epRead a with
    | (a, _, some err) => (a, some ({}, some err))
    | (a, buf, none) => (a, parsePacket buf)

/-- Go `sendAndWait`. -/
def sendAndWait (a : ant) (data : List Nat) : ant × Option (packetInfo × Option Err) :=
  sendAndWaitCxt a data

/-! ## Channel configuration (`configureAndOpenChannel`, lines 101-210) -/

/-- Go `antDeviceType`. -/
structure antDeviceType where
  channelType : Nat
  rfChannel : Nat
  transmissionType : Nat
  deviceType : Nat
  deviceNumber : Nat
  channelPeriod : Nat
  searchTimeout : Nat
  deriving DecidableEq, Repr

/-- Go `heartrate`. -/
def heartrate : antDeviceType :=
  { channelType := 0x00
    rfChannel := 57
    transmissionType := 0
    deviceType := 120
    deviceNumber := 0
    channelPeriod := 8070
    searchTimeout := 12 }

/-- The nine byte lists passed to `sendAndWait` by `configureAndOpenChannel`,
in source order (length byte, message id, payload). -/
def commands (dt : antDeviceType) (deviceNumber : Nat) : List (List Nat) :=
  [ [0x01, 0x4A, 0x00],
    [0x09, 0x46, 0x01, 0xB9, 0xA5, 0x21, 0xFB, 0xBD, 0x72, 0xC3, 0x45],
    [0x03, 0x42, 1, dt.channelType, 1],
    [0x02, 0x45, 1, dt.rfChannel],
    [0x05, 0x51, 1, (deviceNumber &&& 0xFF) % 256, ((deviceNumber &&& 0xFF00) >>> 8) % 256,
      dt.deviceType, dt.transmissionType],
    [0x03, 0x43, 1, (dt.channelPeriod &&& 0xFF) % 256, ((dt.channelPeriod &&& 0xFF00) >>> 8) % 256],
    [0x02, 0x44, 1, dt.searchTimeout],
    [0x02, 0x6E, 0, 0xE0],
    [0x01, 0x4B, 1] ]

/-- Go `configureAndOpenChannel`.  The result is the transport afterwards and
the returned error; `none` in the second component is a panic.  In the steps
whose `if err != nil` body is the bare expression `errors.Wrap(err, ...)` the
wrapped error is dropped and control falls through to the next command. -/
def configureAndOpenChannel (a : ant) (dt : antDeviceType) (deviceNumber : Nat) :
    ant × Option (Option Err) :=
  -- system reset
  match sendAndWait a [0x01, 0x4A, 0x00] with
  | (a, none) => (a, none)
  | (a, some (_, err)) =>
  if err.isSome then (a, some (errorsWrap err "failed system reset")) else
  -- Wait 500ms after reset
  let a := timeSleep a 500
  -- set network key
  match sendAndWait a [0x09, 0x46, 0x01, 0xB9, 0xA5, 0x21, 0xFB, 0xBD, 0x72, 0xC3, 0x45] with
  | (a, none) => (a, none)
  | (a, some (_, err)) =>
  if err.isSome then (a, some (errorsWrap err "failed to write network key")) else
  -- assign channel
  match sendAndWait a [0x03, 0x42, 1, dt.channelType, 1] with
  | (a, none) => (a, none)
  | (a, some (_, err)) =>
  let _ := if err.isSome then errorsWrap err "failed assign channel" else none
  -- set channel RF frequency
  match sendAndWait a [0x02, 0x45, 1, dt.rfChannel] with
  | (a, none) => (a, none)
  | (a, some (_, err)) =>
  if err.isSome then (a, some (errorsWrap err "failed set channel RF")) else
  -- set channel ID
  match sendAndWait a [0x05, 0x51, 1, (deviceNumber &&& 0xFF) % 256,
      ((deviceNumber &&& 0xFF00) >>> 8) % 256, dt.deviceType, dt.transmissionType] with
  | (a, none) => (a, none)
  | (a, some (_, err)) =>
  let _ := if err.isSome then errorsWrap err "failed set channel ID" else none
  -- set channel period
  match sendAndWait a [0x03, 0x43, 1, (dt.channelPeriod &&& 0xFF) % 256,
      ((dt.channelPeriod &&& 0xFF00) >>> 8) % 256] with
  | (a, none) => (a, none)
  | (a, some (_, err)) =>
  let _ := if err.isSome then errorsWrap err "failed set channel ID" else none
  -- set channel search timeout
  match sendAndWait a [0x02, 0x44, 1, dt.searchTimeout] with
  | (a, none) => (a, none)
  | (a, some (_, err)) =>
  let _ := if err.isSome then errorsWrap err "failed set search timeout" else none
  -- enable extended messages
  match sendAndWait a [0x02, 0x6E, 0, 0xE0] with
  | (a, none) => (a, none)
  | (a, some (_, err)) =>
  let _ := if err.isSome then errorsWrap err "failed extended messages" else none
  -- open channel
  match sendAndWait a [0x01, 0x4B, 1] with
  | (a, none) => (a, none)
  | (a, some (_, err)) =>
  let _ := if err.isSome then errorsWrap err "failed open channel" else none
  (a, some none)

/-- The packets written, in order. -/
def written : List Event → List (List Nat)
  | [] => []
  | Event.write p :: es => p :: written es
  | _ :: es => written es

/-! ## Telemetry loop (`main`, lines 59-98) -/

/-- The state carried round the `for` loop of `main`: the aggregate `fpi`, and
the observable calls made so far: the arguments of each `notifyHR` call and the
number of `log.Printf("failed to notify HR. ...")` lines. -/
structure LoopState where
  fpi : packetInfo := {}
  notified : List (String × Nat) := []
  logged : Nat := 0
  deriving DecidableEq, Repr

/-- Lines 79-95 of `main`: merge the decoded `pi` into `fpi`, calling `notifyHR`
on a new non-zero heart rate.  `notifyHR k hr` is the error returned by the
call with argument `hr` made after `k` earlier calls (`none` is nil). -/
def mergeFragment (notifyHR : Nat → Nat → Option Err) (sensorID : String)
    (s : LoopState) (pi : packetInfo) : LoopState :=
  let s :=
    if pi.hr ≠ 0 then
      let s :=
        if pi.hr ≠ s.fpi.hr then
          let err := notifyHR s.notified.length pi.hr
          let s := { s with notified := s.notified ++ [(sensorID, pi.hr)] }
          if err.isSome then { s with logged := s.logged + 1 } else s
        else s
      { s with fpi := { s.fpi with hr := pi.hr } }
    else s
  let s :=
    if pi.deviceNumber ≠ 0 then
      { s with fpi := { s.fpi with deviceNumber := pi.deviceNumber } }
    else s
  let s :=
    if pi.manuID ≠ 0 then { s with fpi := { s.fpi with manuID := pi.manuID } } else s
  let s :=
    if pi.serial ≠ 0 then { s with fpi := { s.fpi with serial := pi.serial } } else s
  s

/-- The outcome of one iteration of the `for` loop of `main`. -/
inductive Step where
  /-- The loop goes on to its next iteration. -/
  | next (a : ant) (s : LoopState)
  /-- The process ends in `log.Fatal(err)`. -/
  | fatal (err : Err)
  /-- A runtime panic. -/
  | panicked

/-- One iteration of the `for` loop of `main` (lines 61-98): read, parse, then
either skip (`continue` on an error response with code 2), die, or merge. -/
def loopIteration (notifyHR : Nat → Nat → Option Err) (sensorID : String)
    (a : ant) (s : LoopState) : Step :=
  match epRead a with
  | (_, _, some err) => Step.fatal err
  | (a, buf, none) =>
    match parsePacket buf with
    | none => Step.panicked
    | some (_, some err) =>
      match err with
      | Err.errorResponse _ _ code => if code = 2 then Step.next a s else Step.fatal err
      | _ => Step.fatal err
    | some (pi, none) => Step.next a (mergeFragment notifyHR sensorID s pi)

/-- The telemetry loop restricted to the fragments it merges: the aggregate
after the given decoded fragments, starting from `s`. -/
def mergeAll (notifyHR : Nat → Nat → Option Err) (sensorID : String)
    (s : LoopState) (frags : List packetInfo) : LoopState :=
  frags.foldl (mergeFragment notifyHR sensorID) s

/-- The last non-zero value of a sequence, 0 when there is none. -/
def lastNonZero (xs : List Nat) : Nat :=
  ((xs.filter (fun x => decide (x ≠ 0))).getLast?).getD 0

/-- Flip bit `j` of the byte at position `i` of a frame. -/
def flipBit (pkt : List Nat) (i j : Nat) : List Nat :=
  pkt.set i ((pkt.getD i 0) ^^^ (1 <<< j))

/-! ## Concrete replies used in the evaluations -/

/-- A channel response frame with code 0 (no error): sync, length 3, message id
0x40, channel 1, answered message 0x42, code 0, checksum. -/
def okReply : List Nat := [0xA4, 0x03, 0x40, 0x01, 0x42, 0x00, 0xA4]

/-- A channel response frame with the non-zero code 0x15: sync, length 3,
message id 0x40, channel 1, answered message 0x42, code 0x15, checksum. -/
def errReply : List Nat := [0xA4, 0x03, 0x40, 0x01, 0x42, 0x15, 0xB1]

/-- The reply sequence whose `k`-th reply is `errReply` and whose other replies
are `okReply`. -/
def errorAt (k : Nat) : Nat → List Nat := fun n => if n = k then errReply else okReply

/-- A broadcast frame without extension bytes: sync, length 9, message id 0x4E,
channel 0, the data page `[0x02, 0x7B, 0x34, 0x12, 0, 0, 0, 0x96]` (page number
2, manufacturer 0x7B, serial 0x1234, heart rate 0x96), checksum. -/
def manufacturerFrame : List Nat :=
  [0xA4, 0x09, 0x4E, 0x00, 0x02, 0x7B, 0x34, 0x12, 0x00, 0x00, 0x00, 0x96, 0x2A]

/-- A broadcast frame without extension bytes: sync, length 9, message id 0x4E,
channel 0, the data page `[0x01, 0x02, 0x34, 0x12, 0, 0, 0, 0x96]`, checksum. -/
def pageOneFrame : List Nat :=
  [0xA4, 0x09, 0x4E, 0x00, 0x01, 0x02, 0x34, 0x12, 0x00, 0x00, 0x00, 0x96, 0x50]

/-- The 8-byte data page of a broadcast frame: the bytes after the
channel-number byte, frame positions 4 to 11. -/
def dataPage (pkt : List Nat) : List Nat := (pkt.drop 4).take 8

/-! ## Teardown (`main`, lines 46-57) -/

/-- The byte list passed to `sendAndWait` by the deferred function of `main`
(length byte, message id close channel, channel number). -/
def closeCommand : List Nat := [0x01, 0x4C, 1]

/-- The deferred function of `main`: send the close-channel command and wait
for its reply.  The second component is `none` on a panic, `some (some err)`
when the process ends in `log.Fatalf`, `some none` otherwise. -/
def mainDeferred (a : ant) : ant × Option (Option Err) :=
  match sendAndWait a [0x01, 0x4C, 1] with
  | (a, none) => (a, none)
  | (a, some (_, err)) => (a, some err)

/-! ## More concrete frames used in the evaluations -/

/-- A channel response frame with code 2: sync, length 3, message id 0x40,
channel 1, answered message 0x01, code 0x02, checksum. -/
def code2Reply : List Nat := [0xA4, 0x03, 0x40, 0x01, 0x01, 0x02, 0xE5]

/-- A start-up message frame: sync, length 1, message id 0x6F, one payload
byte, checksum. -/
def startupFrame : List Nat := [0xA4, 0x01, 0x6F, 0x00, 0xCA]

/-- A broadcast frame with extension bytes: sync, length 20, message id 0x4E,
channel 0, the data page `[0x04, 0, 0, 0, 0, 0, 0, 0x50]`, eleven extension
bytes of which the third and fourth are 0x04 and 0xD2, checksum. -/
def extendedFrame : List Nat :=
  [0xA4, 0x14, 0x4E, 0x00, 0x04, 0x00, 0x00, 0x00, 0x00, 0x00, 0x00, 0x50,
   0x80, 0x01, 0x04, 0xD2, 0x78, 0x01, 0x00, 0x00, 0x00, 0x00, 0x00, 0x84]

/-! ## Lemmas on the XOR checksum -/

theorem foldl_xor_acc (l : List Nat) (acc : Nat) :
    l.foldl (fun sum x => sum ^^^ x) acc = acc ^^^ xorAll l := by
  unfold xorAll
  induction l generalizing acc with
  | nil => simp
  | cons x xs ih =>
    simp only [List.foldl_cons]
    rw [ih (acc ^^^ x), ih (0 ^^^ x), Nat.zero_xor, Nat.xor_assoc]

theorem xorAll_nil : xorAll [] = 0 := rfl

theorem xorAll_cons (x : Nat) (l : List Nat) : xorAll (x :: l) = x ^^^ xorAll l := by
  show List.foldl (fun sum x => sum ^^^ x) (0 ^^^ x) l = _
  rw [foldl_xor_acc, Nat.zero_xor]

theorem xorAll_append (l₁ l₂ : List Nat) : xorAll (l₁ ++ l₂) = xorAll l₁ ^^^ xorAll l₂ := by
  induction l₁ with
  | nil => simp [xorAll_nil]
  | cons x xs ih => simp [xorAll_cons, ih, Nat.xor_assoc]

theorem xorAll_singleton (x : Nat) : xorAll [x] = x := by
  simp [xorAll_cons, xorAll_nil]

/-- The packet before the checksum is stored: sync byte, data, one zero. -/
theorem sendPacket_eq (data : List Nat) :
    sendPacket data = 0xA4 :: (data ++ [xorAll (0xA4 :: data)]) := by
  have h1 : (List.replicate (data.length + 2) 0).set 0 0xA4
      = 0xA4 :: List.replicate (data.length + 1) 0 := by
    simp [List.replicate_succ]
  have h2 : copySlice (List.replicate (data.length + 1) 0) data = data ++ [0] := by
    unfold copySlice
    have ht : List.take (List.replicate (data.length + 1) 0).length data = data := by
      apply List.take_of_length_le
      simp
    have hd : List.drop data.length (List.replicate (data.length + 1) 0) = [0] := by
      rw [List.drop_replicate]
      simp
    rw [ht, hd]
  unfold sendPacket
  simp only [h1, List.take_succ_cons, List.take_zero, List.drop_succ_cons, List.drop_zero, h2]
  have h3 : ([0xA4] ++ (data ++ [0])).length - 1 = ([0xA4] ++ data).length := by simp
  have h4 : [0xA4] ++ (data ++ [0]) = ([0xA4] ++ data) ++ [0] := by simp
  rw [h3]
  conv_lhs => rw [h4]
  rw [List.set_append_right _ _ (le_refl _)]
  simp [xorAll_append, xorAll_cons, xorAll_nil]

/-! ## `parsePacket` on frames that pass, or fail, the framing checks -/

theorem index_of_lt (pkt : List Nat) (i : Nat) (h : i < pkt.length) :
    index pkt i = some (pkt.getD i 0) := by
  unfold index
  rw [List.getD_eq_getElem?_getD, List.getElem?_eq_getElem h]
  rfl

theorem wellFormed_iff (pkt : List Nat) :
    wellFormed pkt = true ↔
      4 ≤ pkt.length ∧ pkt.length ≤ 56 ∧ xorAll pkt = 0 ∧ pkt.getD 0 0 = 0xA4 ∧
        pkt.length = pkt.getD 1 0 + 4 := by
  unfold wellFormed
  simp only [Bool.and_eq_true, decide_eq_true_eq]
  constructor
  · rintro ⟨⟨⟨⟨h1, h2⟩, h3⟩, h4⟩, h5⟩
    have i0 := index_of_lt pkt 0 (by omega)
    have i1 := index_of_lt pkt 1 (by omega)
    unfold index at i0 i1
    rw [i0] at h4
    rw [i1] at h5
    simp only [Option.some.injEq, Option.map_some'] at h4 h5
    exact ⟨h1, h2, h3, h4, h5.symm⟩
  · rintro ⟨h1, h2, h3, h4, h5⟩
    have i0 := index_of_lt pkt 0 (by omega)
    have i1 := index_of_lt pkt 1 (by omega)
    unfold index at i0 i1
    rw [i0, i1]
    simp only [Option.some.injEq, Option.map_some']
    exact ⟨⟨⟨⟨h1, h2⟩, h3⟩, h4⟩, h5.symm⟩

/-- The body of `parsePacket` once the framing checks have passed, with the
bytes it reads named. -/
theorem parsePacket_core (pkt : List Nat) (ll p2 p3 p4 p5 p6 p11 p14 p15 : Nat)
    (h1 : 4 ≤ pkt.length) (h2 : pkt.length ≤ 56) (h3 : xorAll pkt = 0)
    (h5 : pkt.length = ll + 4)
    (e0 : index pkt 0 = some 0xA4) (e1 : index pkt 1 = some ll) (e2 : index pkt 2 = some p2)
    (e3 : ll = 3 → index pkt 3 = some p3 ∧ index pkt 4 = some p4 ∧ index pkt 5 = some p5)
    (e4 : 9 ≤ ll → index pkt 4 = some p4 ∧ index pkt 5 = some p5 ∧ index pkt 6 = some p6 ∧
      index pkt 11 = some p11)
    (e5 : ll = 20 → index pkt 14 = some p14 ∧ index pkt 15 = some p15) :
    parsePacket pkt =
      if p2 = 0x40 then
        if ll ≠ 3 then some ({}, some Err.incorrectLength)
        else if p5 ≠ 0 then
          some ({ errorCode := p5 }, some (Err.errorResponse p3 p4 p5))
        else some ({ errorCode := p5 }, none)
      else if p2 = 0x4E then
        if ll < 9 then some ({}, some Err.incorrectBroadcastLength)
        else
          some ({ hr := p11
                  manuID := if p4 &&& 0x7F = 2 then p4 else 0
                  serial := if p4 &&& 0x7F = 2 then p5 ||| ((p6 <<< 8) % 65536) else 0
                  deviceNumber := if ll = 20 then p15 ||| ((p14 <<< 8) % 65536) else 0 }, none)
      else some ({}, none) := by
  unfold parsePacket
  have hlen : ¬ (pkt.length < 4 ∨ pkt.length > 56) := by omega
  have hx : ¬ (xorAll pkt ≠ 0) := by simp [h3]
  have hs : ¬ ((164 : Nat) ≠ 164) := by simp
  have hl : ¬ (pkt.length ≠ ll + 4) := by simp [h5]
  simp only [if_neg hlen, if_neg hx, e0, e1, e2, Option.some_bind, if_neg hs, if_neg hl]
  by_cases c40 : p2 = 0x40
  · rw [if_pos c40, if_pos c40]
    by_cases cl : ll = 3
    · obtain ⟨i3, i4, i5⟩ := e3 cl
      have cl' : ¬ (ll ≠ 3) := by simp [cl]
      rw [if_neg cl', if_neg cl']
      simp only [i3, i4, i5, Option.some_bind]
    · rw [if_pos cl, if_pos cl]
  · rw [if_neg c40, if_neg c40]
    by_cases c4e : p2 = 0x4E
    · rw [if_pos c4e, if_pos c4e]
      by_cases cl : ll < 9
      · rw [if_pos cl, if_pos cl]
      · obtain ⟨i4, i5, i6, i11⟩ := e4 (by omega)
        rw [if_neg cl, if_neg cl]
        simp only [i4, i5, i6, i11, Option.some_bind]
        by_cases c20 : ll = 20
        · obtain ⟨i14, i15⟩ := e5 c20
          simp only [if_pos c20, i14, i15, Option.some_bind]
          by_cases cp : p4 &&& 0x7F = 2
          · simp only [if_pos cp, Option.some_bind]
          · simp only [if_neg cp, Option.some_bind]
        · simp only [if_neg c20]
          by_cases cp : p4 &&& 0x7F = 2
          · simp only [if_pos cp, Option.some_bind]
          · simp only [if_neg cp, Option.some_bind]
    · rw [if_neg c4e, if_neg c4e]

/-- On a frame that passes the framing checks `parsePacket` does not panic, and
its result is given by the message id, the declared length and the bytes at
the fixed positions the source reads. -/
theorem parsePacket_of_wellFormed (pkt : List Nat) (h : wellFormed pkt = true) :
    parsePacket pkt =
      if pkt.getD 2 0 = 0x40 then
        if pkt.getD 1 0 ≠ 3 then some ({}, some Err.incorrectLength)
        else if pkt.getD 5 0 ≠ 0 then
          some ({ errorCode := pkt.getD 5 0 },
            some (Err.errorResponse (pkt.getD 3 0) (pkt.getD 4 0) (pkt.getD 5 0)))
        else some ({ errorCode := pkt.getD 5 0 }, none)
      else if pkt.getD 2 0 = 0x4E then
        if pkt.getD 1 0 < 9 then some ({}, some Err.incorrectBroadcastLength)
        else
          some ({ hr := pkt.getD 11 0
                  manuID := if pkt.getD 4 0 &&& 0x7F = 2 then pkt.getD 4 0 else 0
                  serial := if pkt.getD 4 0 &&& 0x7F = 2 then
                      pkt.getD 5 0 ||| ((pkt.getD 6 0 <<< 8) % 65536) else 0
                  deviceNumber := if pkt.getD 1 0 = 20 then
                      pkt.getD 15 0 ||| ((pkt.getD 14 0 <<< 8) % 65536) else 0 }, none)
      else some ({}, none) := by
  obtain ⟨h1, h2, h3, h4, h5⟩ := (wellFormed_iff pkt).1 h
  have e0 := index_of_lt pkt 0 (by omega)
  rw [h4] at e0
  exact parsePacket_core pkt _ _ _ _ _ _ _ _ _ h1 h2 h3 h5 e0
    (index_of_lt pkt 1 (by omega)) (index_of_lt pkt 2 (by omega))
    (fun hl => ⟨index_of_lt pkt 3 (by omega), index_of_lt pkt 4 (by omega),
      index_of_lt pkt 5 (by omega)⟩)
    (fun hl => ⟨index_of_lt pkt 4 (by omega), index_of_lt pkt 5 (by omega),
      index_of_lt pkt 6 (by omega), index_of_lt pkt 11 (by omega)⟩)
    (fun hl => ⟨index_of_lt pkt 14 (by omega), index_of_lt pkt 15 (by omega)⟩)

/-- A frame that violates a framing condition is rejected with a framing error
and an all-zero `packetInfo`. -/
theorem parsePacket_of_not_wellFormed (pkt : List Nat) (h : wellFormed pkt = false) :
    ∃ e, parsePacket pkt = some ({}, some e) ∧ e.isFraming = true := by
  have h' : ¬ (wellFormed pkt = true) := by simp [h]
  rw [wellFormed_iff] at h'
  unfold parsePacket
  by_cases hlen : pkt.length < 4 ∨ pkt.length > 56
  · exact ⟨Err.invalidPacketLength pkt.length, by rw [if_pos hlen], rfl⟩
  · rw [if_neg hlen]
    by_cases hx : xorAll pkt ≠ 0
    · exact ⟨Err.invalidChecksum, by simp only [if_pos hx], rfl⟩
    · simp only [if_neg hx, index_of_lt pkt 0 (by omega), index_of_lt pkt 1 (by omega),
        Option.some_bind]
      by_cases hs : pkt.getD 0 0 ≠ 0xA4
      · exact ⟨Err.invalidSyncByte (pkt.getD 0 0), by rw [if_pos hs], rfl⟩
      · rw [if_neg hs]
        have hl : pkt.length ≠ pkt.getD 1 0 + 4 := by
          intro hl
          exact h' ⟨by omega, by omega, not_not.1 hx, not_not.1 hs, hl⟩
        exact ⟨Err.unexpectedPacketLength pkt.length ((pkt.getD 1 0 + 4) % 256),
          by rw [if_pos hl], rfl⟩

/-- Passing the framing checks of `parsePacket` is the same as meeting the
four framing conditions. -/
theorem passesFraming_eq_wellFormed (pkt : List Nat) : passesFraming pkt = wellFormed pkt := by
  cases h : wellFormed pkt with
  | false =>
    obtain ⟨e, he, hf⟩ := parsePacket_of_not_wellFormed pkt h
    simp [passesFraming, he, hf]
  | true =>
    have hp := parsePacket_of_wellFormed pkt h
    unfold passesFraming
    rw [hp]
    split_ifs <;> rfl

/-! ## Round trip of `send` and `parsePacket` -/

theorem sendPacket_length (data : List Nat) : (sendPacket data).length = data.length + 2 := by
  rw [sendPacket_eq]
  simp

theorem xorAll_sendPacket (data : List Nat) : xorAll (sendPacket data) = 0 := by
  rw [sendPacket_eq, xorAll_cons, xorAll_append, xorAll_singleton, xorAll_cons, ← Nat.xor_assoc,
    Nat.xor_self]

theorem sendPacket_frame (len msgId : Nat) (payload : List Nat) :
    sendPacket (len :: msgId :: payload)
      = 0xA4 :: len :: msgId :: (payload ++ [xorAll (0xA4 :: len :: msgId :: payload)]) := by
  rw [sendPacket_eq]
  simp

/-- Claim C1, as stated, fails at payload length 53: the frame that `send`
builds for message id 0x4E and a payload of 53 zero bytes has 57 bytes, and
`parsePacket` rejects it with the invalid-packet-length error, so it does not
pass the total-size check. -/
theorem roundtrip_fails_at_53 :
    (List.replicate 53 0).length = 53 ∧
      isBytes (53 :: 0x4E :: List.replicate 53 0) = true ∧
      parsePacket (sendPacket (53 :: 0x4E :: List.replicate 53 0))
        = some ({}, some (Err.invalidPacketLength 57)) ∧
      passesFraming (sendPacket (53 :: 0x4E :: List.replicate 53 0)) = false := by
  refine ⟨by decide, by decide, ?_, ?_⟩
  · unfold parsePacket
    rw [if_pos (by rw [sendPacket_length]; simp)]
    rw [sendPacket_length]
    rfl
  · rw [passesFraming_eq_wellFormed]
    unfold wellFormed
    rw [sendPacket_length]
    rfl

/-- Claim C1, amended to payload lengths 1 to 52: for every message id and
every payload of length 1 to 52, the frame that `send` builds from
(length, msgId, payload...) passes all four framing checks of `parsePacket`, and
the bytes `parsePacket` reads at position 1, at position 2 and at positions
3 .. 3+length-1 are the length, the msgId and the payload that were encoded. -/
theorem roundtrip_upto_52 (msgId : Nat) (payload : List Nat)
    (hlo : 1 ≤ payload.length) (hhi : payload.length ≤ 52) :
    passesFraming (sendPacket (payload.length :: msgId :: payload)) = true ∧
      wellFormed (sendPacket (payload.length :: msgId :: payload)) = true ∧
      index (sendPacket (payload.length :: msgId :: payload)) 1 = some payload.length ∧
      index (sendPacket (payload.length :: msgId :: payload)) 2 = some msgId ∧
      (∀ i, i < payload.length →
        index (sendPacket (payload.length :: msgId :: payload)) (3 + i) = payload[i]?) ∧
      ((sendPacket (payload.length :: msgId :: payload)).drop 3).take payload.length
        = payload := by
  have hwf : wellFormed (sendPacket (payload.length :: msgId :: payload)) = true := by
    rw [wellFormed_iff]
    refine ⟨?_, ?_, xorAll_sendPacket _, ?_, ?_⟩
    · rw [sendPacket_length]; simp
    · rw [sendPacket_length]; simp; omega
    · rw [sendPacket_frame]; rfl
    · rw [sendPacket_length, sendPacket_frame]; simp
  refine ⟨by rw [passesFraming_eq_wellFormed]; exact hwf, hwf, ?_, ?_, ?_, ?_⟩
  · rw [sendPacket_frame]; simp [index]
  · rw [sendPacket_frame]; simp [index]
  · intro i hi
    rw [sendPacket_frame]
    unfold index
    rw [show 3 + i = i + 1 + 1 + 1 by omega]
    simp only [List.getElem?_cons_succ]
    rw [List.getElem?_append_left hi]
  · rw [sendPacket_frame]
    simp

/-- Witness of the amended round trip: message id 0x4E with the one-byte
payload `[7]`. -/
theorem roundtrip_upto_52_witness :
    passesFraming (sendPacket ([7].length :: 0x4E :: [7])) = true ∧
      wellFormed (sendPacket ([7].length :: 0x4E :: [7])) = true ∧
      index (sendPacket ([7].length :: 0x4E :: [7])) 1 = some [7].length ∧
      index (sendPacket ([7].length :: 0x4E :: [7])) 2 = some 0x4E ∧
      (∀ i, i < [7].length → index (sendPacket ([7].length :: 0x4E :: [7])) (3 + i) = [7][i]?) ∧
      ((sendPacket ([7].length :: 0x4E :: [7])).drop 3).take [7].length = [7] :=
  roundtrip_upto_52 0x4E [7] (by decide) (by decide)

/-! ## Single bit flips -/

theorem xorAll_set (l : List Nat) (i d : Nat) (h : i < l.length) :
    xorAll (l.set i (l.getD i 0 ^^^ d)) = xorAll l ^^^ d := by
  induction l generalizing i with
  | nil => simp at h
  | cons x xs ih =>
    cases i with
    | zero =>
      simp only [List.set_cons_zero, xorAll_cons, List.getD_cons_zero]
      rw [Nat.xor_assoc, Nat.xor_comm d, ← Nat.xor_assoc]
    | succ n =>
      simp only [List.set_cons_succ, xorAll_cons, List.getD_cons_succ]
      rw [ih n (by simpa using h), Nat.xor_assoc]

/-- Claim C2: for every frame that passes the framing checks, every byte
position `i` in it and every bit `j` of that byte, `parsePacket` applied to the
frame with that bit flipped fails with the invalid-checksum error; the sync
byte (`i = 0`) and the length byte (`i = 1`) are included because the checksum
is tested before them. -/
theorem bit_flip_invalid_checksum (pkt : List Nat) (i j : Nat)
    (hwf : wellFormed pkt = true) (hi : i < pkt.length) (_hj : j < 8) :
    parsePacket (flipBit pkt i j) = some ({}, some Err.invalidChecksum) := by
  obtain ⟨h1, h2, h3, -, -⟩ := (wellFormed_iff pkt).1 hwf
  have hlen : (flipBit pkt i j).length = pkt.length := by simp [flipBit]
  have hx : xorAll (flipBit pkt i j) ≠ 0 := by
    unfold flipBit
    rw [xorAll_set pkt i _ hi, h3, Nat.zero_xor, Nat.one_shiftLeft]
    exact Nat.pos_iff_ne_zero.1 (Nat.two_pow_pos j)
  unfold parsePacket
  rw [if_neg (by rw [hlen]; omega)]
  simp only [if_pos hx]

/-- Witness of the bit-flip property: bit 2 of the sync byte of the reset
command frame. -/
theorem bit_flip_invalid_checksum_witness :
    parsePacket (flipBit [0xA4, 0x01, 0x4A, 0x00, 0xEF] 0 2) = some ({}, some Err.invalidChecksum) :=
  bit_flip_invalid_checksum [0xA4, 0x01, 0x4A, 0x00, 0xEF] 0 2 (by decide) (by decide) (by decide)

/-! ## Layout of the packet written by `send` -/

/-- Claim C3: for every byte list `data` the packet that `send` writes is
`[0xA4] ++ data ++ [c]`, of size `len(data) + 2`, where `c` is the XOR of all
preceding bytes, so that the XOR of every byte of the written packet is 0;
`send` performs exactly that one write and returns nil. -/
theorem send_packet_layout (data : List Nat) :
    sendPacket data = [0xA4] ++ data ++ [xorAll ([0xA4] ++ data)] ∧
      (sendPacket data).length = data.length + 2 ∧
      xorAll (sendPacket data) = 0 ∧
      ∀ a : ant, (send a data).1.trace = a.trace ++ [Event.write (sendPacket data)] ∧
        (send a data).2 = none := by
  refine ⟨?_, sendPacket_length data, xorAll_sendPacket data, ?_⟩
  · rw [sendPacket_eq]
    simp
  · intro a
    exact ⟨rfl, rfl⟩

/-! ## The handshake -/

theorem sendAndWait_eq (a : ant) (data : List Nat) :
    sendAndWait a data =
      ({ a with reads := a.reads + 1
                trace := a.trace ++ [Event.write (sendPacket data)] ++ [Event.read] },
        parsePacket (a.iep a.reads)) := rfl

/-- Claim C4 fails on the code.  With device number 0 and a reply sequence
whose reply to command `k` is a channel error with code 0x15 (all other
replies being acknowledgements): for the steps `k = 2, 4, 5, 6, 7, 8` (assign
channel, channel ID, period, search timeout, extended messages, open)
`configureAndOpenChannel` still writes all nine commands and returns nil; only
for `k = 0, 1, 3` (reset, network key, RF) does it stop after command `k` and
return the wrapped error. -/
theorem handshake_ignores_channel_error :
    parsePacket errReply = some ({ errorCode := 0x15 }, some (Err.errorResponse 1 0x42 0x15)) ∧
      parsePacket okReply = some ({}, none) ∧
      [2, 4, 5, 6, 7, 8].map
          (fun k => (configureAndOpenChannel { iep := errorAt k } heartrate 0).2)
        = [some none, some none, some none, some none, some none, some none] ∧
      [2, 4, 5, 6, 7, 8].map
          (fun k => (written (configureAndOpenChannel { iep := errorAt k } heartrate 0).1.trace).length)
        = [9, 9, 9, 9, 9, 9] ∧
      (configureAndOpenChannel { iep := errorAt 0 } heartrate 0).2
        = some (some (Err.wrap (Err.errorResponse 1 0x42 0x15) "failed system reset")) ∧
      (written (configureAndOpenChannel { iep := errorAt 0 } heartrate 0).1.trace).length = 1 ∧
      (configureAndOpenChannel { iep := errorAt 1 } heartrate 0).2
        = some (some (Err.wrap (Err.errorResponse 1 0x42 0x15) "failed to write network key")) ∧
      (written (configureAndOpenChannel { iep := errorAt 1 } heartrate 0).1.trace).length = 2 ∧
      (configureAndOpenChannel { iep := errorAt 3 } heartrate 0).2
        = some (some (Err.wrap (Err.errorResponse 1 0x42 0x15) "failed set channel RF")) ∧
      (written (configureAndOpenChannel { iep := errorAt 3 } heartrate 0).1.trace).length = 4 := by
  refine ⟨by decide, by decide, by decide, by decide, by decide, by decide, by decide,
    by decide, by decide, by decide⟩

/-- Claim C5: for every device number (and every device profile), when each of
the nine replies parses without error, `configureAndOpenChannel` writes
exactly nine frames, the packets `send` builds from the nine commands in source
order, whose msgId bytes are 0x4A, 0x46, 0x42, 0x45, 0x51, 0x43, 0x44, 0x6E,
0x4B; each write is followed by exactly one read (the only other event is the
500 ms sleep after the reset exchange); nine reads are made; the result is
nil. -/
theorem handshake_success (a : ant) (dt : antDeviceType) (deviceNumber : Nat)
    (hok : ∀ k, k < 9 → ∃ pi, parsePacket (a.iep (a.reads + k)) = some (pi, none)) :
    (configureAndOpenChannel a dt deviceNumber).2 = some none ∧
      (∃ f0 f1 f2 f3 f4 f5 f6 f7 f8,
        (commands dt deviceNumber).map sendPacket = [f0, f1, f2, f3, f4, f5, f6, f7, f8] ∧
        (configureAndOpenChannel a dt deviceNumber).1.trace = a.trace ++
          [Event.write f0, Event.read, Event.sleep 500, Event.write f1, Event.read,
           Event.write f2, Event.read, Event.write f3, Event.read, Event.write f4, Event.read,
           Event.write f5, Event.read, Event.write f6, Event.read, Event.write f7, Event.read,
           Event.write f8, Event.read] ∧
        [f0, f1, f2, f3, f4, f5, f6, f7, f8].map (fun f => index f 2)
          = [some 0x4A, some 0x46, some 0x42, some 0x45, some 0x51, some 0x43, some 0x44,
             some 0x6E, some 0x4B]) ∧
      (configureAndOpenChannel a dt deviceNumber).1.reads = a.reads + 9 := by
  obtain ⟨q0, h0⟩ : ∃ pi, parsePacket (a.iep a.reads) = some (pi, none) := hok 0 (by omega)
  obtain ⟨q1, h1⟩ : ∃ pi, parsePacket (a.iep (a.reads + 1)) = some (pi, none) :=
    hok 1 (by omega)
  obtain ⟨q2, h2⟩ : ∃ pi, parsePacket (a.iep (a.reads + 1 + 1)) = some (pi, none) :=
    hok 2 (by omega)
  obtain ⟨q3, h3⟩ : ∃ pi, parsePacket (a.iep (a.reads + 1 + 1 + 1)) = some (pi, none) :=
    hok 3 (by omega)
  obtain ⟨q4, h4⟩ : ∃ pi, parsePacket (a.iep (a.reads + 1 + 1 + 1 + 1)) = some (pi, none) :=
    hok 4 (by omega)
  obtain ⟨q5, h5⟩ : ∃ pi, parsePacket (a.iep (a.reads + 1 + 1 + 1 + 1 + 1)) = some (pi, none) :=
    hok 5 (by omega)
  obtain ⟨q6, h6⟩ :
      ∃ pi, parsePacket (a.iep (a.reads + 1 + 1 + 1 + 1 + 1 + 1)) = some (pi, none) :=
    hok 6 (by omega)
  obtain ⟨q7, h7⟩ :
      ∃ pi, parsePacket (a.iep (a.reads + 1 + 1 + 1 + 1 + 1 + 1 + 1)) = some (pi, none) :=
    hok 7 (by omega)
  obtain ⟨q8, h8⟩ :
      ∃ pi, parsePacket (a.iep (a.reads + 1 + 1 + 1 + 1 + 1 + 1 + 1 + 1)) = some (pi, none) :=
    hok 8 (by omega)
  have hrun : configureAndOpenChannel a dt deviceNumber =
      ({ a with
          reads := a.reads + 1 + 1 + 1 + 1 + 1 + 1 + 1 + 1 + 1
          trace := a.trace ++
            [Event.write (sendPacket [0x01, 0x4A, 0x00]), Event.read, Event.sleep 500,
             Event.write (sendPacket
               [0x09, 0x46, 0x01, 0xB9, 0xA5, 0x21, 0xFB, 0xBD, 0x72, 0xC3, 0x45]), Event.read,
             Event.write (sendPacket [0x03, 0x42, 1, dt.channelType, 1]), Event.read,
             Event.write (sendPacket [0x02, 0x45, 1, dt.rfChannel]), Event.read,
             Event.write (sendPacket [0x05, 0x51, 1, (deviceNumber &&& 0xFF) % 256,
               ((deviceNumber &&& 0xFF00) >>> 8) % 256, dt.deviceType, dt.transmissionType]),
             Event.read,
             Event.write (sendPacket [0x03, 0x43, 1, (dt.channelPeriod &&& 0xFF) % 256,
               ((dt.channelPeriod &&& 0xFF00) >>> 8) % 256]), Event.read,
             Event.write (sendPacket [0x02, 0x44, 1, dt.searchTimeout]), Event.read,
             Event.write (sendPacket [0x02, 0x6E, 0, 0xE0]), Event.read,
             Event.write (sendPacket [0x01, 0x4B, 1]), Event.read] },
        some none) := by
    unfold configureAndOpenChannel
    simp only [sendAndWait_eq, timeSleep, h0, h1, h2, h3, h4, h5, h6, h7, h8, Option.isSome_none,
      Bool.false_eq_true, if_false, List.append_assoc, List.cons_append, List.nil_append]
  rw [hrun]
  refine ⟨rfl, ⟨_, _, _, _, _, _, _, _, _, rfl, rfl, ?_⟩, rfl⟩
  simp only [sendPacket_eq, List.map_cons, List.map_nil, index]
  simp

/-- Witness of the successful handshake: device number 1234, the heart-rate
profile, and a transport that acknowledges every command. -/
theorem handshake_success_witness :
    (∀ k, k < 9 → ∃ pi, parsePacket ((fun _ => okReply) (0 + k)) = some (pi, none)) ∧
      (configureAndOpenChannel { iep := fun _ => okReply } heartrate 1234).2 = some none ∧
      (configureAndOpenChannel { iep := fun _ => okReply } heartrate 1234).1.reads = 0 + 9 :=
  have hok : ∀ k, k < 9 → ∃ pi, parsePacket ((fun _ => okReply) (0 + k)) = some (pi, none) :=
    fun _ _ => ⟨{}, show parsePacket okReply = some ({}, none) by decide⟩
  have h := handshake_success { iep := fun _ => okReply } heartrate 1234 hok
  ⟨hok, h.1, h.2.2⟩

/-! ## Broadcast data -/

theorem dataPage_getD (pkt : List Nat) (i : Nat) (hi : i < 8) :
    (dataPage pkt).getD i 0 = pkt.getD (4 + i) 0 := by
  unfold dataPage
  simp only [List.getD_eq_getElem?_getD, List.getElem?_take, if_pos hi, List.getElem?_drop]

theorem dataPage_length (pkt : List Nat) (h : 12 ≤ pkt.length) : (dataPage pkt).length = 8 := by
  unfold dataPage
  simp only [List.length_take, List.length_drop]
  omega

/-- On a well-formed broadcast frame with a payload of at least 9 bytes
`parsePacket` succeeds, and the four telemetry fields are read from the fixed
frame positions 4, 5, 6, 11, 14 and 15. -/
theorem parsePacket_broadcast (pkt : List Nat) (hwf : wellFormed pkt = true)
    (hid : pkt.getD 2 0 = 0x4E) (hll : 9 ≤ pkt.getD 1 0) :
    parsePacket pkt =
      some ({ hr := pkt.getD 11 0
              manuID := if pkt.getD 4 0 &&& 0x7F = 2 then pkt.getD 4 0 else 0
              serial := if pkt.getD 4 0 &&& 0x7F = 2 then
                  pkt.getD 5 0 ||| ((pkt.getD 6 0 <<< 8) % 65536) else 0
              deviceNumber := if pkt.getD 1 0 = 20 then
                  pkt.getD 15 0 ||| ((pkt.getD 14 0 <<< 8) % 65536) else 0 }, none) := by
  rw [parsePacket_of_wellFormed pkt hwf, if_neg (by rw [hid]; decide), if_pos hid,
    if_neg (by omega)]

/-- Claim C6 fails on the code.  `manufacturerFrame` is a well-formed broadcast
frame of declared length 9 whose data page is
`[0x02, 0x7B, 0x34, 0x12, 0, 0, 0, 0x96]`, of page number 2; `parsePacket`
reports manufacturer ID 0x02 (the page-number byte `p[0]`, not `p[1] = 0x7B`)
and serial 0x347B (from `p[1]`, `p[2]`, not 0x1234 from `p[2]`, `p[3]`). -/
theorem page2_fields_off_by_one :
    wellFormed manufacturerFrame = true ∧
      index manufacturerFrame 2 = some 0x4E ∧
      index manufacturerFrame 1 = some 9 ∧
      dataPage manufacturerFrame = [0x02, 0x7B, 0x34, 0x12, 0, 0, 0, 0x96] ∧
      (0x02 &&& 0x7F = 2) ∧
      parsePacket manufacturerFrame = some ({ hr := 0x96, manuID := 0x02, serial := 0x347B }, none) ∧
      (0x02 : Nat) ≠ 0x7B ∧ (0x347B : Nat) ≠ 0x34 + 256 * 0x12 := by
  decide

/-- Claim C7, as stated, fails: `pageOneFrame` is a well-formed broadcast frame
whose data page is `[0x01, 0x02, 0x34, 0x12, 0, 0, 0, 0x96]`, and `parsePacket`
reports manufacturer ID 0 and serial 0 for it (with heart rate 150), not
manufacturer ID 2 and serial 0x1234. -/
theorem page_one_frame_no_manufacturer :
    wellFormed pageOneFrame = true ∧
      index pageOneFrame 2 = some 0x4E ∧
      dataPage pageOneFrame = [0x01, 0x02, 0x34, 0x12, 0, 0, 0, 0x96] ∧
      parsePacket pageOneFrame = some ({ hr := 150, manuID := 0, serial := 0 }, none) ∧
      ¬ (∃ pi err, parsePacket pageOneFrame = some (pi, err) ∧
          pi.manuID = 2 ∧ pi.serial = 0x1234 ∧ pi.hr = 150) := by
  have hp : parsePacket pageOneFrame = some ({ hr := 150, manuID := 0, serial := 0 }, none) := by
    decide
  refine ⟨by decide, by decide, by decide, hp, ?_⟩
  rintro ⟨pi, err, h, hm, -, -⟩
  rw [hp] at h
  simp only [Option.some.injEq, Prod.mk.injEq] at h
  rw [← h.1] at hm
  exact absurd hm (by decide)

/-- Claim C7, amended: for every well-formed broadcast frame (msgId 0x4E,
declared length at least 9, any channel-number byte, with or without extension
bytes) whose data page is `[0x01, 0x02, 0x34, 0x12, 0, 0, 0, 0x96]`,
`parsePacket` succeeds and reports heart rate 150 and, the page number being
`0x01 & 0x7F = 1` and not 2, manufacturer ID 0 and serial 0. -/
theorem page_one_reports_heart_rate_only (pkt : List Nat) (hwf : wellFormed pkt = true)
    (hid : pkt.getD 2 0 = 0x4E) (hll : 9 ≤ pkt.getD 1 0)
    (hpage : dataPage pkt = [0x01, 0x02, 0x34, 0x12, 0, 0, 0, 0x96]) :
    ∃ pi, parsePacket pkt = some (pi, none) ∧ pi.manuID = 0 ∧ pi.serial = 0 ∧ pi.hr = 150 := by
  have h4 : pkt.getD 4 0 = 0x01 := by
    rw [show 4 = 4 + 0 from rfl, ← dataPage_getD pkt 0 (by decide), hpage]; rfl
  have h11 : pkt.getD 11 0 = 0x96 := by
    rw [show 11 = 4 + 7 from rfl, ← dataPage_getD pkt 7 (by decide), hpage]; rfl
  refine ⟨_, parsePacket_broadcast pkt hwf hid hll, ?_, ?_, ?_⟩
  · simp only [h4]; exact if_neg (by decide)
  · simp only [h4]; exact if_neg (by decide)
  · simp only [h11]

/-- Witness of the amended page-one property: `pageOneFrame`. -/
theorem page_one_reports_heart_rate_only_witness :
    ∃ pi, parsePacket pageOneFrame = some (pi, none) ∧ pi.manuID = 0 ∧ pi.serial = 0 ∧
      pi.hr = 150 :=
  page_one_reports_heart_rate_only pageOneFrame (by decide) (by decide) (by decide) (by decide)

/-- Claim C8: for every well-formed broadcast frame (msgId 0x4E, declared
length at least 9), whatever its page number, `parsePacket` succeeds and the
heart rate it reports is the byte at frame position 11, which is the last byte
(index 7) of the 8-byte data page following the channel-number byte. -/
theorem heart_rate_is_last_page_byte (pkt : List Nat) (hwf : wellFormed pkt = true)
    (hid : pkt.getD 2 0 = 0x4E) (hll : 9 ≤ pkt.getD 1 0) :
    ∃ pi, parsePacket pkt = some (pi, none) ∧
      index pkt 11 = some pi.hr ∧
      (dataPage pkt).length = 8 ∧
      (dataPage pkt)[7]? = some pi.hr := by
  obtain ⟨h1, h2, h3, h4, h5⟩ := (wellFormed_iff pkt).1 hwf
  refine ⟨_, parsePacket_broadcast pkt hwf hid hll, ?_, dataPage_length pkt (by omega), ?_⟩
  · exact index_of_lt pkt 11 (by omega)
  · have hlen := dataPage_length pkt (by omega)
    rw [List.getElem?_eq_getElem (by omega)]
    have := dataPage_getD pkt 7 (by decide)
    rw [List.getD_eq_getElem?_getD, List.getElem?_eq_getElem (by omega)] at this
    simpa using this

/-- Witness of the heart-rate position: `manufacturerFrame`, whose heart rate
byte is 0x96. -/
theorem heart_rate_is_last_page_byte_witness :
    ∃ pi, parsePacket manufacturerFrame = some (pi, none) ∧
      index manufacturerFrame 11 = some pi.hr ∧
      (dataPage manufacturerFrame).length = 8 ∧
      (dataPage manufacturerFrame)[7]? = some pi.hr :=
  heart_rate_is_last_page_byte manufacturerFrame (by decide) (by decide) (by decide)

/-! ## The merge of the telemetry loop -/

/-- The aggregate after one merge: each of the four telemetry fields takes the
value of the fragment when that is non-zero and keeps its own otherwise. -/
theorem mergeFragment_fpi (notifyHR : Nat → Nat → Option Err) (sensorID : String)
    (s : LoopState) (pi : packetInfo) :
    (mergeFragment notifyHR sensorID s pi).fpi =
      { hr := if pi.hr ≠ 0 then pi.hr else s.fpi.hr
        deviceNumber := if pi.deviceNumber ≠ 0 then pi.deviceNumber else s.fpi.deviceNumber
        errorCode := s.fpi.errorCode
        manuID := if pi.manuID ≠ 0 then pi.manuID else s.fpi.manuID
        serial := if pi.serial ≠ 0 then pi.serial else s.fpi.serial } := by
  dsimp only [mergeFragment]
  split_ifs <;> rfl

/-- The `notifyHR` calls after one merge. -/
theorem mergeFragment_notified (notifyHR : Nat → Nat → Option Err) (sensorID : String)
    (s : LoopState) (pi : packetInfo) :
    (mergeFragment notifyHR sensorID s pi).notified =
      s.notified ++ (if pi.hr ≠ 0 ∧ pi.hr ≠ s.fpi.hr then [(sensorID, pi.hr)] else []) := by
  dsimp only [mergeFragment]
  split_ifs <;> simp_all

/-- A left fold whose step overwrites a component with every non-zero input
and keeps it otherwise ends with the last non-zero input, or the initial
component when there is none. -/
theorem foldl_last_nonzero {σ β : Type} (step : σ → β → σ) (f : σ → Nat) (g : β → Nat)
    (hstep : ∀ s x, f (step s x) = if g x ≠ 0 then g x else f s) (s : σ) (xs : List β) :
    f (xs.foldl step s)
      = (((xs.map g).filter (fun x => decide (x ≠ 0))).getLast?).getD (f s) := by
  induction xs generalizing s with
  | nil => rfl
  | cons x xs ih =>
    rw [List.foldl_cons, ih, hstep, List.map_cons]
    by_cases hx : g x ≠ 0
    · rw [if_pos hx, List.filter_cons_of_pos (by simpa using hx), List.getLast?_cons]
      rfl
    · rw [if_neg hx, List.filter_cons_of_neg (by simpa using hx)]

/-- Claim C9: for every finite sequence of decoded fragments merged in order
into the all-zero aggregate, each of heart rate, device number, manufacturer ID
and serial of the result is the last non-zero value of that field in the
sequence, or 0 when there is none; a fragment whose field is zero leaves that
field of the aggregate as it was; and merging (hr=80, device=0) then
(hr=0, device=1234) gives hr=80, device=1234. -/
theorem merge_keeps_last_nonzero (notifyHR : Nat → Nat → Option Err) (sensorID : String)
    (frags : List packetInfo) :
    (mergeAll notifyHR sensorID {} frags).fpi.hr = lastNonZero (frags.map (fun p => p.hr)) ∧
      (mergeAll notifyHR sensorID {} frags).fpi.deviceNumber
        = lastNonZero (frags.map (fun p => p.deviceNumber)) ∧
      (mergeAll notifyHR sensorID {} frags).fpi.manuID
        = lastNonZero (frags.map (fun p => p.manuID)) ∧
      (mergeAll notifyHR sensorID {} frags).fpi.serial
        = lastNonZero (frags.map (fun p => p.serial)) ∧
      (∀ (s : LoopState) (pi : packetInfo),
        (mergeFragment notifyHR sensorID s { pi with hr := 0 }).fpi.hr = s.fpi.hr ∧
        (mergeFragment notifyHR sensorID s { pi with deviceNumber := 0 }).fpi.deviceNumber
          = s.fpi.deviceNumber ∧
        (mergeFragment notifyHR sensorID s { pi with manuID := 0 }).fpi.manuID = s.fpi.manuID ∧
        (mergeFragment notifyHR sensorID s { pi with serial := 0 }).fpi.serial = s.fpi.serial) ∧
      (mergeAll notifyHR sensorID {}
          [{ hr := 80, deviceNumber := 0 }, { hr := 0, deviceNumber := 1234 }]).fpi
        = { hr := 80, deviceNumber := 1234 } := by
  refine ⟨?_, ?_, ?_, ?_, ?_, ?_⟩
  · exact foldl_last_nonzero (mergeFragment notifyHR sensorID) (fun s => s.fpi.hr)
      (fun p => p.hr) (fun s x => by simp only [mergeFragment_fpi]) {} frags
  · exact foldl_last_nonzero (mergeFragment notifyHR sensorID) (fun s => s.fpi.deviceNumber)
      (fun p => p.deviceNumber) (fun s x => by simp only [mergeFragment_fpi]) {} frags
  · exact foldl_last_nonzero (mergeFragment notifyHR sensorID) (fun s => s.fpi.manuID)
      (fun p => p.manuID) (fun s x => by simp only [mergeFragment_fpi]) {} frags
  · exact foldl_last_nonzero (mergeFragment notifyHR sensorID) (fun s => s.fpi.serial)
      (fun p => p.serial) (fun s x => by simp only [mergeFragment_fpi]) {} frags
  · intro s pi
    simp only [mergeFragment_fpi]
    simp
  · simp only [mergeAll, List.foldl_cons, List.foldl_nil, mergeFragment_fpi]
    simp

/-- An iteration of the loop whose read parses without error goes on with the
read recorded and the decoded fragment merged into the state. -/
theorem loopIteration_of_ok (notifyHR : Nat → Nat → Option Err) (sensorID : String)
    (a : ant) (s : LoopState) (pi : packetInfo)
    (h : parsePacket (a.iep a.reads) = some (pi, none)) :
    loopIteration notifyHR sensorID a s =
      Step.next { a with reads := a.reads + 1, trace := a.trace ++ [Event.read] }
        (mergeFragment notifyHR sensorID s pi) := by
  unfold loopIteration epRead
  simp only [h]

/-- Claim C10: in one iteration of the telemetry loop (`loopIteration`), when
the frame read parses without error to the fragment `pi`, the loop goes on and
`notifyHR` is called, once and with the heart rate of the fragment, exactly
when that heart rate is non-zero and differs from the aggregated heart rate
before the merge; when the frame fails to parse, no call is made (the loop
goes on with the state unchanged or the process ends).  Hence, from any state
and for any non-zero heart rate different from that of the state, two
consecutive iterations whose fragments carry that heart rate cause exactly one
call, made in the first of them, and the calls are the same whatever the
notifier returns (`notifyA` and `notifyB` are two notifiers). -/
theorem notifier_called_once (notifyA notifyB : Nat → Nat → Option Err) (sensorID : String)
    (a : ant) (s : LoopState) (piA piB : packetInfo)
    (hA : parsePacket (a.iep a.reads) = some (piA, none))
    (hB : parsePacket (a.iep (a.reads + 1)) = some (piB, none))
    (h0 : piA.hr ≠ 0) (h1 : piA.hr ≠ s.fpi.hr) (h2 : piB.hr = piA.hr) :
    (∀ (nf : Nat → Nat → Option Err) (b : ant) (t : LoopState) (pi : packetInfo),
        parsePacket (b.iep b.reads) = some (pi, none) →
        ∃ t', loopIteration nf sensorID b t =
            Step.next { b with reads := b.reads + 1, trace := b.trace ++ [Event.read] } t' ∧
          t'.notified =
            t.notified ++ (if pi.hr ≠ 0 ∧ pi.hr ≠ t.fpi.hr then [(sensorID, pi.hr)] else []) ∧
          t'.fpi.hr = (if pi.hr ≠ 0 then pi.hr else t.fpi.hr)) ∧
      (∀ (nf : Nat → Nat → Option Err) (b : ant) (t : LoopState) (pi : packetInfo) (e : Err),
        parsePacket (b.iep b.reads) = some (pi, some e) →
        loopIteration nf sensorID b t =
            Step.next { b with reads := b.reads + 1, trace := b.trace ++ [Event.read] } t ∨
          loopIteration nf sensorID b t = Step.fatal e) ∧
      (∀ (nf : Nat → Nat → Option Err) (t : LoopState) (pi : packetInfo),
        (mergeFragment nf sensorID t pi).notified =
          t.notified ++ (if pi.hr ≠ 0 ∧ pi.hr ≠ t.fpi.hr then [(sensorID, pi.hr)] else [])) ∧
      (∃ sA₁ sA₂ sB₁ sB₂,
        loopIteration notifyA sensorID a s =
            Step.next { a with reads := a.reads + 1, trace := a.trace ++ [Event.read] } sA₁ ∧
          loopIteration notifyA sensorID
              { a with reads := a.reads + 1, trace := a.trace ++ [Event.read] } sA₁ =
            Step.next { a with reads := a.reads + 1 + 1,
                               trace := a.trace ++ [Event.read] ++ [Event.read] } sA₂ ∧
          loopIteration notifyB sensorID a s =
            Step.next { a with reads := a.reads + 1, trace := a.trace ++ [Event.read] } sB₁ ∧
          loopIteration notifyB sensorID
              { a with reads := a.reads + 1, trace := a.trace ++ [Event.read] } sB₁ =
            Step.next { a with reads := a.reads + 1 + 1,
                               trace := a.trace ++ [Event.read] ++ [Event.read] } sB₂ ∧
          sA₁.notified = s.notified ++ [(sensorID, piA.hr)] ∧
          sA₂.notified = s.notified ++ [(sensorID, piA.hr)] ∧
          sA₂.notified.length = s.notified.length + 1 ∧
          sB₂.notified = sA₂.notified) := by
  have one : ∀ nf : Nat → Nat → Option Err,
      (mergeFragment nf sensorID s piA).notified = s.notified ++ [(sensorID, piA.hr)] := by
    intro nf
    rw [mergeFragment_notified, if_pos (And.intro h0 h1)]
  have key : ∀ nf : Nat → Nat → Option Err,
      (mergeFragment nf sensorID (mergeFragment nf sensorID s piA) piB).notified
        = s.notified ++ [(sensorID, piA.hr)] := by
    intro nf
    rw [mergeFragment_notified, mergeFragment_notified, mergeFragment_fpi]
    simp only [h2, if_pos h0, if_pos (And.intro h0 h1)]
    simp
  refine ⟨?_, ?_, fun nf t pi => mergeFragment_notified nf sensorID t pi, ?_⟩
  · intro nf b t pi h
    refine ⟨mergeFragment nf sensorID t pi, loopIteration_of_ok nf sensorID b t pi h,
      mergeFragment_notified nf sensorID t pi, ?_⟩
    rw [mergeFragment_fpi]
  · intro nf b t pi e h
    cases e with
    | errorResponse ch m code =>
      by_cases hc : code = 2
      · left
        unfold loopIteration epRead
        simp only [h, if_pos hc]
      · right
        unfold loopIteration epRead
        simp only [h, if_neg hc]
    | _ =>
      right
      unfold loopIteration epRead
      simp only [h]
  · refine ⟨mergeFragment notifyA sensorID s piA,
      mergeFragment notifyA sensorID (mergeFragment notifyA sensorID s piA) piB,
      mergeFragment notifyB sensorID s piA,
      mergeFragment notifyB sensorID (mergeFragment notifyB sensorID s piA) piB,
      loopIteration_of_ok notifyA sensorID a s piA hA,
      loopIteration_of_ok notifyA sensorID _ _ piB hB,
      loopIteration_of_ok notifyB sensorID a s piA hA,
      loopIteration_of_ok notifyB sensorID _ _ piB hB,
      one notifyA, key notifyA, ?_, ?_⟩
    · rw [key]; simp
    · rw [key, key]

/-- Witness of the single notification: from the all-zero state, a transport
whose reads all return `manufacturerFrame` (heart rate 150), run for two
iterations with a notifier that succeeds and with one that always fails. -/
theorem notifier_called_once_witness :
    ∃ sA₁ sA₂ sB₁ sB₂,
      loopIteration (fun _ _ => none) "s" { iep := fun _ => manufacturerFrame } {} =
          Step.next { iep := fun _ => manufacturerFrame, reads := 1, trace := [Event.read] } sA₁ ∧
        loopIteration (fun _ _ => none) "s"
            { iep := fun _ => manufacturerFrame, reads := 1, trace := [Event.read] } sA₁ =
          Step.next { iep := fun _ => manufacturerFrame, reads := 2,
                      trace := [Event.read, Event.read] } sA₂ ∧
        loopIteration (fun _ _ => some (Err.foreign "bridge")) "s"
            { iep := fun _ => manufacturerFrame } {} =
          Step.next { iep := fun _ => manufacturerFrame, reads := 1, trace := [Event.read] } sB₁ ∧
        loopIteration (fun _ _ => some (Err.foreign "bridge")) "s"
            { iep := fun _ => manufacturerFrame, reads := 1, trace := [Event.read] } sB₁ =
          Step.next { iep := fun _ => manufacturerFrame, reads := 2,
                      trace := [Event.read, Event.read] } sB₂ ∧
        sA₁.notified = [("s", 150)] ∧
        sA₂.notified = [("s", 150)] ∧
        sA₂.notified.length = 1 ∧
        sB₂.notified = sA₂.notified :=
  (notifier_called_once (fun _ _ => none) (fun _ _ => some (Err.foreign "bridge")) "s"
    { iep := fun _ => manufacturerFrame } {}
    { hr := 0x96, manuID := 0x02, serial := 0x347B } { hr := 0x96, manuID := 0x02, serial := 0x347B }
    (by decide) (by decide) (by decide) (by decide) rfl).2.2.2

/-! ## One iteration of the telemetry loop -/

/-- Claim C11: in one iteration of the telemetry loop, when `parsePacket` fails
on the frame read with error `e`: if `e` is a channel error event with code 2
the loop goes on, with the aggregate, the notifier calls and the log unchanged
(only the read is recorded); if `e` is any other error (a framing error, a bad
payload length, a channel error with another code) the process ends in
`log.Fatal(e)`. -/
theorem loop_skips_only_code_2 (notifyHR : Nat → Nat → Option Err) (sensorID : String)
    (a : ant) (s : LoopState) (pi : packetInfo) (e : Err)
    (h : parsePacket (a.iep a.reads) = some (pi, some e)) :
    ((∃ ch m, e = Err.errorResponse ch m 2) →
        loopIteration notifyHR sensorID a s =
          Step.next { a with reads := a.reads + 1, trace := a.trace ++ [Event.read] } s) ∧
      ((¬ ∃ ch m, e = Err.errorResponse ch m 2) →
        loopIteration notifyHR sensorID a s = Step.fatal e) := by
  constructor
  · rintro ⟨ch, m, rfl⟩
    unfold loopIteration epRead
    simp only [h, if_true]
  · intro hne
    cases e with
    | errorResponse ch m code =>
      have hc : code ≠ 2 := fun hc => hne ⟨ch, m, by rw [hc]⟩
      unfold loopIteration epRead
      simp only [h, if_neg hc]
    | _ =>
      unfold loopIteration epRead
      simp only [h]

/-- Witness of the loop property: a transport whose reads all return the
code-2 channel error is skipped, one whose reads all return the code-0x15
channel error is fatal. -/
theorem loop_skips_only_code_2_witness :
    parsePacket code2Reply = some ({ errorCode := 2 }, some (Err.errorResponse 1 1 2)) ∧
      loopIteration (fun _ _ => none) "s" { iep := fun _ => code2Reply } {}
        = Step.next { iep := fun _ => code2Reply, reads := 1, trace := [Event.read] } {} ∧
      loopIteration (fun _ _ => none) "s" { iep := fun _ => errReply } {}
        = Step.fatal (Err.errorResponse 1 0x42 0x15) :=
  ⟨by decide,
   (loop_skips_only_code_2 (fun _ _ => none) "s" { iep := fun _ => code2Reply } {}
      { errorCode := 2 } (Err.errorResponse 1 1 2) (by decide)).1 ⟨1, 1, rfl⟩,
   (loop_skips_only_code_2 (fun _ _ => none) "s" { iep := fun _ => errReply } {}
      { errorCode := 0x15 } (Err.errorResponse 1 0x42 0x15) (by decide)).2
      (by rintro ⟨ch, m, h⟩; injection h with _ _ h3; exact absurd h3 (by decide))⟩

/-! ## Channel responses -/

theorem payload3 (pkt : List Nat) (ch m code : Nat) (h : (pkt.drop 3).take 3 = [ch, m, code]) :
    pkt.getD 3 0 = ch ∧ pkt.getD 4 0 = m ∧ pkt.getD 5 0 = code := by
  have key : ∀ i, i < 3 → pkt.getD (3 + i) 0 = [ch, m, code].getD i 0 := by
    intro i hi
    rw [← h]
    simp only [List.getD_eq_getElem?_getD, List.getElem?_take, if_pos hi, List.getElem?_drop]
  exact ⟨key 0 (by decide), key 1 (by decide), key 2 (by decide)⟩

/-- Claim C12: for every frame that passes the framing checks and has msgId
0x40: if the declared payload length is not 3, `parsePacket` fails with the
error "Incorrect length"; if it is 3, with payload `[ch, m, code]`, and
`code` is not 0, `parsePacket` fails with the `errorResponse` whose channelID,
msgID and code are `ch`, `m` and `code`; if `code` is 0 it succeeds with an
all-zero `packetInfo` (no heart rate, device number, manufacturer ID, serial). -/
theorem channel_response_dispatch (pkt : List Nat) (hwf : wellFormed pkt = true)
    (hid : pkt.getD 2 0 = 0x40) :
    (pkt.getD 1 0 ≠ 3 → parsePacket pkt = some ({}, some Err.incorrectLength)) ∧
      (∀ ch m code, pkt.getD 1 0 = 3 → (pkt.drop 3).take 3 = [ch, m, code] → code ≠ 0 →
        parsePacket pkt = some ({ errorCode := code }, some (Err.errorResponse ch m code))) ∧
      (∀ ch m, pkt.getD 1 0 = 3 → (pkt.drop 3).take 3 = [ch, m, 0] →
        parsePacket pkt = some ({}, none)) := by
  have hp := parsePacket_of_wellFormed pkt hwf
  rw [if_pos hid] at hp
  refine ⟨?_, ?_, ?_⟩
  · intro hl
    rw [hp, if_pos hl]
  · intro ch m code hl hpay hc
    obtain ⟨h3, h4, h5⟩ := payload3 pkt ch m code hpay
    rw [hp, if_neg (not_not.2 hl), h3, h4, h5, if_pos hc]
  · intro ch m hl hpay
    obtain ⟨h3, h4, h5⟩ := payload3 pkt ch m 0 hpay
    rw [hp, if_neg (not_not.2 hl), h5, if_neg (not_not.2 rfl)]

/-- Witness of the channel response dispatch: the code-0x15 channel error
reply, and the acknowledgement. -/
theorem channel_response_dispatch_witness :
    parsePacket errReply = some ({ errorCode := 0x15 }, some (Err.errorResponse 1 0x42 0x15)) ∧
      parsePacket okReply = some ({}, none) :=
  ⟨(channel_response_dispatch errReply (by decide) (by decide)).2.1 1 0x42 0x15
      (by decide) (by decide) (by decide),
   (channel_response_dispatch okReply (by decide) (by decide)).2.2 1 0x42
      (by decide) (by decide)⟩

/-! ## Framing errors -/

/-- Claim C13, as stated, fails: `[0, 0, 0, 1]` has size 4 and a first byte
other than 0xA4, and `parsePacket` rejects it with the invalid-checksum error,
not the invalid-sync error, because the checksum is tested first. -/
theorem bad_sync_reported_as_checksum :
    4 ≤ [0, 0, 0, 1].length ∧ [0, 0, 0, 1].length ≤ 56 ∧ isBytes [0, 0, 0, 1] = true ∧
      [0, 0, 0, 1].getD 0 0 ≠ 0xA4 ∧
      parsePacket [0, 0, 0, 1] = some ({}, some Err.invalidChecksum) ∧
      ¬ (∃ pi b, parsePacket [0, 0, 0, 1] = some (pi, some (Err.invalidSyncByte b))) := by
  refine ⟨by decide, by decide, by decide, by decide, by decide, ?_⟩
  rintro ⟨pi, b, h⟩
  rw [show parsePacket [0, 0, 0, 1] = some ({}, some Err.invalidChecksum) by decide] at h
  simp at h

/-- Claim C13, amended: for every byte sequence of size 4 to 56 whose bytes
XOR to 0 and whose first byte is not 0xA4, `parsePacket` fails with the
invalid-sync error (carrying that first byte), whatever the other bytes are. -/
theorem bad_sync_after_checksum (pkt : List Nat) (h1 : 4 ≤ pkt.length) (h2 : pkt.length ≤ 56)
    (hx : xorAll pkt = 0) (hs : pkt.getD 0 0 ≠ 0xA4) :
    parsePacket pkt = some ({}, some (Err.invalidSyncByte (pkt.getD 0 0))) := by
  unfold parsePacket
  rw [if_neg (by omega)]
  simp only [hx, ne_eq, not_true_eq_false, if_false, index_of_lt pkt 0 (by omega),
    Option.some_bind]
  rw [if_pos hs]

/-- Witness of the amended sync property: `[0xA5, 0, 0, 0xA5]`. -/
theorem bad_sync_after_checksum_witness :
    parsePacket [0xA5, 0, 0, 0xA5] = some ({}, some (Err.invalidSyncByte 0xA5)) :=
  bad_sync_after_checksum [0xA5, 0, 0, 0xA5] (by decide) (by decide) (by decide) (by decide)

/-- Claim C14: for every byte sequence, if its size is below 4 or above 56,
`parsePacket` fails with the invalid-packet-length error whatever its contents;
and if its size is in 4..56, its first byte is 0xA4, the XOR of all its bytes
is 0 and its declared length byte differs from size - 4, `parsePacket` fails
with the unexpected-packet-length error. -/
theorem length_errors (pkt : List Nat) :
    ((pkt.length < 4 ∨ 56 < pkt.length) →
        parsePacket pkt = some ({}, some (Err.invalidPacketLength pkt.length))) ∧
      (4 ≤ pkt.length → pkt.length ≤ 56 → pkt.getD 0 0 = 0xA4 → xorAll pkt = 0 →
        pkt.getD 1 0 ≠ pkt.length - 4 →
        parsePacket pkt = some ({}, some (Err.unexpectedPacketLength pkt.length
          ((pkt.getD 1 0 + 4) % 256)))) := by
  constructor
  · intro h
    unfold parsePacket
    rw [if_pos (by omega)]
  · intro h1 h2 hs hx hl
    unfold parsePacket
    rw [if_neg (by omega)]
    simp only [hx, ne_eq, not_true_eq_false, if_false, index_of_lt pkt 0 (by omega),
      index_of_lt pkt 1 (by omega), Option.some_bind, hs]
    rw [if_pos (by omega)]

/-- Witness of the length errors: a 3-byte sequence, and a 5-byte sequence
whose length byte declares 2 payload bytes instead of 1. -/
theorem length_errors_witness :
    parsePacket [0xA4, 0, 0xA4] = some ({}, some (Err.invalidPacketLength 3)) ∧
      parsePacket [0xA4, 0x02, 0x4A, 0x00, 0xEC]
        = some ({}, some (Err.unexpectedPacketLength 5 6)) :=
  ⟨(length_errors [0xA4, 0, 0xA4]).1 (by decide),
   (length_errors [0xA4, 0x02, 0x4A, 0x00, 0xEC]).2 (by decide) (by decide) (by decide)
      (by decide) (by decide)⟩

/-! ## Device number, unknown message ids and broadcast length -/

theorem isBytes_getD (pkt : List Nat) (i : Nat) (h : isBytes pkt = true) : pkt.getD i 0 < 256 := by
  unfold isBytes at h
  rw [List.all_eq_true] at h
  by_cases hi : i < pkt.length
  · rw [List.getD_eq_getElem _ _ hi]
    have := h (pkt[i]) (List.getElem_mem hi)
    simpa using this
  · rw [List.getD_eq_default _ _ (by omega)]
    decide

theorem big_endian_16 (hi lo : Nat) (hhi : hi < 256) (hlo : lo < 256) :
    lo ||| ((hi <<< 8) % 65536) = 256 * hi + lo := by
  rw [Nat.shiftLeft_eq, Nat.mod_eq_of_lt (by omega), Nat.lor_comm, Nat.mul_comm]
  exact (Nat.mul_add_lt_is_or (show lo < 2 ^ 8 by omega) hi).symm

/-- Claim C15: for every well-formed broadcast frame (msgId 0x4E) made of
bytes: when its declared payload length is 20, `parsePacket` succeeds and the
device number it reports is `256 * pkt[14] + pkt[15]`, both positions being in
range; when its declared payload length is at least 9 and not 20, `parsePacket`
succeeds and the reported device number is 0. -/
theorem device_number_big_endian (pkt : List Nat) (hwf : wellFormed pkt = true)
    (hid : pkt.getD 2 0 = 0x4E) (hb : isBytes pkt = true) :
    (pkt.getD 1 0 = 20 →
        ∃ pi p14 p15, parsePacket pkt = some (pi, none) ∧ index pkt 14 = some p14 ∧
          index pkt 15 = some p15 ∧ pi.deviceNumber = 256 * p14 + p15) ∧
      (9 ≤ pkt.getD 1 0 → pkt.getD 1 0 ≠ 20 →
        ∃ pi, parsePacket pkt = some (pi, none) ∧ pi.deviceNumber = 0) := by
  obtain ⟨h1, h2, h3, h4, h5⟩ := (wellFormed_iff pkt).1 hwf
  constructor
  · intro hl
    refine ⟨_, _, _, parsePacket_broadcast pkt hwf hid (by omega),
      index_of_lt pkt 14 (by omega), index_of_lt pkt 15 (by omega), ?_⟩
    show (if pkt.getD 1 0 = 20 then
      pkt.getD 15 0 ||| ((pkt.getD 14 0 <<< 8) % 65536) else 0) = _
    rw [if_pos hl]
    exact big_endian_16 _ _ (isBytes_getD pkt 14 hb) (isBytes_getD pkt 15 hb)
  · intro hl hne
    exact ⟨_, parsePacket_broadcast pkt hwf hid hl, if_neg hne⟩

/-- Witness of the device number property: `extendedFrame`, whose bytes 14 and
15 are 0x04 and 0xD2, gives device number 1234; `manufacturerFrame`, of
declared length 9, gives device number 0. -/
theorem device_number_big_endian_witness :
    (∃ pi p14 p15, parsePacket extendedFrame = some (pi, none) ∧
        index extendedFrame 14 = some p14 ∧ index extendedFrame 15 = some p15 ∧
        pi.deviceNumber = 256 * p14 + p15) ∧
      (∃ pi, parsePacket manufacturerFrame = some (pi, none) ∧ pi.deviceNumber = 0) :=
  ⟨(device_number_big_endian extendedFrame (by decide) (by decide) (by decide)).1 (by decide),
   (device_number_big_endian manufacturerFrame (by decide) (by decide) (by decide)).2
      (by decide) (by decide)⟩

/-- Claim C16: for every frame that passes the framing checks and whose msgId
is neither 0x40 nor 0x4E (the start-up id 0x6F and every unrecognized id),
`parsePacket` returns nil with an all-zero `packetInfo`. -/
theorem other_ids_are_no_ops (pkt : List Nat) (hwf : wellFormed pkt = true)
    (h40 : pkt.getD 2 0 ≠ 0x40) (h4e : pkt.getD 2 0 ≠ 0x4E) :
    parsePacket pkt = some ({}, none) := by
  rw [parsePacket_of_wellFormed pkt hwf, if_neg h40, if_neg h4e]

/-- Witness of the no-op property: the start-up frame. -/
theorem other_ids_are_no_ops_witness : parsePacket startupFrame = some ({}, none) :=
  other_ids_are_no_ops startupFrame (by decide) (by decide) (by decide)

/-- Claim C17: for every frame that passes the framing checks and has msgId
0x4E, `parsePacket` fails if and only if the declared payload length is below
9, and then with the error "Incorrect broadcast data length"; with a declared
length of 9 or more it succeeds. -/
theorem broadcast_fails_iff_short (pkt : List Nat) (hwf : wellFormed pkt = true)
    (hid : pkt.getD 2 0 = 0x4E) :
    ((∃ pi e, parsePacket pkt = some (pi, some e)) ↔ pkt.getD 1 0 < 9) ∧
      (pkt.getD 1 0 < 9 → parsePacket pkt = some ({}, some Err.incorrectBroadcastLength)) ∧
      (9 ≤ pkt.getD 1 0 → ∃ pi, parsePacket pkt = some (pi, none)) := by
  have hshort : pkt.getD 1 0 < 9 →
      parsePacket pkt = some ({}, some Err.incorrectBroadcastLength) := by
    intro hl
    rw [parsePacket_of_wellFormed pkt hwf, if_neg (by rw [hid]; decide), if_pos hid, if_pos hl]
  refine ⟨⟨?_, fun hl => ⟨_, _, hshort hl⟩⟩, hshort,
    fun hl => ⟨_, parsePacket_broadcast pkt hwf hid hl⟩⟩
  rintro ⟨pi, e, h⟩
  by_contra hl
  rw [parsePacket_broadcast pkt hwf hid (by omega)] at h
  simp at h

/-- Witness of the broadcast length property: `manufacturerFrame`, of declared
length 9, is accepted. -/
theorem broadcast_fails_iff_short_witness :
    ∃ pi, parsePacket manufacturerFrame = some (pi, none) :=
  (broadcast_fails_iff_short manufacturerFrame (by decide) (by decide)).2.2 (by decide)

/-! ## `send` does not validate -/

/-- Claim C18, as stated, fails: given length byte 0, msgId 0x4A and an empty
payload, `send` returns nil and writes the 4-byte frame `A4 00 4A EE`; given
length byte 54, msgId 0x4E and a payload of 54 zero bytes, `send` returns nil
and writes one frame of 58 bytes. -/
theorem send_accepts_any_length :
    (send { iep := fun _ => [] } [0, 0x4A]).2 = none ∧
      (send { iep := fun _ => [] } [0, 0x4A]).1.trace = [Event.write [0xA4, 0x00, 0x4A, 0xEE]] ∧
      (List.replicate 54 0).length = 54 ∧
      (send { iep := fun _ => [] } (54 :: 0x4E :: List.replicate 54 0)).2 = none ∧
      (written (send { iep := fun _ => [] } (54 :: 0x4E :: List.replicate 54 0)).1.trace).map
          List.length = [58] := by
  decide

/-- Claim C18, amended: `send` does not validate the payload length.  For
every length byte, msgId and payload, whatever the length of the payload (0
and more than 53 included), `send` builds a frame of `len(payload) + 4` bytes,
writes it to the out endpoint and returns the result of the write, nil. -/
theorem send_never_rejects (a : ant) (len msgId : Nat) (payload : List Nat) :
    (send a (len :: msgId :: payload)).2 = none ∧
      (send a (len :: msgId :: payload)).1.trace
        = a.trace ++ [Event.write (sendPacket (len :: msgId :: payload))] ∧
      (sendPacket (len :: msgId :: payload)).length = payload.length + 4 := by
  refine ⟨rfl, rfl, ?_⟩
  rw [sendPacket_length]
  simp

/-! ## Totality of `parsePacket` -/

/-- Claim C19: `parsePacket` is total and never indexes out of bounds: for
every byte sequence (any size, any contents, the empty one included) it
returns a pair of results, that is, none of its indexed reads is out of range,
an out-of-range read `index s i` being exactly one with `len(s) <= i`. -/
theorem parsePacket_total (pkt : List Nat) :
    (∃ pi err, parsePacket pkt = some (pi, err)) ∧
      (parsePacket []).isSome = true ∧
      (∀ (s : List Nat) (i : Nat), index s i = none ↔ s.length ≤ i) := by
  refine ⟨?_, by decide, fun s i => by unfold index; exact List.getElem?_eq_none_iff⟩
  cases h : wellFormed pkt with
  | false =>
    obtain ⟨e, he, -⟩ := parsePacket_of_not_wellFormed pkt h
    exact ⟨_, _, he⟩
  | true =>
    rw [parsePacket_of_wellFormed pkt h]
    split_ifs <;> exact ⟨_, _, rfl⟩

/-! ## The command frames -/

theorem written_append (l₁ l₂ : List Event) : written (l₁ ++ l₂) = written l₁ ++ written l₂ := by
  induction l₁ with
  | nil => rfl
  | cons e es ih => cases e <;> simp [written, ih]

/-- The frame built from a length byte that equals the payload length, for a
payload of at most 52 bytes, meets the four framing conditions. -/
theorem wellFormed_sendPacket (msgId : Nat) (payload : List Nat) (h : payload.length ≤ 52) :
    wellFormed (sendPacket (payload.length :: msgId :: payload)) = true := by
  rw [wellFormed_iff]
  refine ⟨?_, ?_, xorAll_sendPacket _, ?_, ?_⟩
  · rw [sendPacket_length]; simp
  · rw [sendPacket_length]; simp; omega
  · rw [sendPacket_frame]; rfl
  · rw [sendPacket_length, sendPacket_frame]; simp

theorem sendAndWait_written (a : ant) (data : List Nat) :
    written (sendAndWait a data).1.trace = written a.trace ++ [sendPacket data] := by
  rw [sendAndWait_eq]
  simp only [written_append, written, List.append_nil]

theorem written_timeSleep (a : ant) (ms : Nat) :
    written (timeSleep a ms).trace = written a.trace := by
  unfold timeSleep
  simp only [written_append, written, List.append_nil]

/-- Whatever the replies, the packets written by `configureAndOpenChannel` are
those built from an initial segment of its nine commands, in order. -/
theorem configure_writes_commands (a : ant) (dt : antDeviceType) (deviceNumber : Nat) :
    ∃ n, n ≤ 9 ∧ written (configureAndOpenChannel a dt deviceNumber).1.trace
      = written a.trace ++ ((commands dt deviceNumber).map sendPacket).take n := by
  unfold configureAndOpenChannel
  have hw0 := sendAndWait_written a [0x01, 0x4A, 0x00]
  generalize sendAndWait a [0x01, 0x4A, 0x00] = res0 at hw0 ⊢
  obtain ⟨a1, r0⟩ := res0
  try dsimp only at hw0
  rcases r0 with _ | ⟨p0, _ | e0⟩
  · try simp only [Option.isSome_none, Option.isSome_some, Bool.false_eq_true, if_false, if_true]
    exact ⟨1, by omega, hw0⟩
  · try simp only [Option.isSome_none, Option.isSome_some, Bool.false_eq_true, if_false, if_true]
    try dsimp only
    have hw1 := sendAndWait_written (timeSleep a1 500) [0x09, 0x46, 0x01, 0xB9, 0xA5, 0x21, 0xFB, 0xBD, 0x72, 0xC3, 0x45]
    generalize sendAndWait (timeSleep a1 500) [0x09, 0x46, 0x01, 0xB9, 0xA5, 0x21, 0xFB, 0xBD, 0x72, 0xC3, 0x45] = res1 at hw1 ⊢
    obtain ⟨a2, r1⟩ := res1
    try dsimp only at hw1
    rw [written_timeSleep, hw0, List.append_assoc] at hw1
    rcases r1 with _ | ⟨p1, _ | e1⟩
    · try simp only [Option.isSome_none, Option.isSome_some, Bool.false_eq_true, if_false, if_true]
      exact ⟨2, by omega, hw1⟩
    · try simp only [Option.isSome_none, Option.isSome_some, Bool.false_eq_true, if_false, if_true]
      try dsimp only
      have hw2 := sendAndWait_written a2 [0x03, 0x42, 1, dt.channelType, 1]
      generalize sendAndWait a2 [0x03, 0x42, 1, dt.channelType, 1] = res2 at hw2 ⊢
      obtain ⟨a3, r2⟩ := res2
      try dsimp only at hw2
      rw [hw1, List.append_assoc] at hw2
      rcases r2 with _ | ⟨p2, e2⟩
      · try simp only [Option.isSome_none, Option.isSome_some, Bool.false_eq_true, if_false, if_true]
        exact ⟨3, by omega, hw2⟩
      · try dsimp only
        have hw3 := sendAndWait_written a3 [0x02, 0x45, 1, dt.rfChannel]
        generalize sendAndWait a3 [0x02, 0x45, 1, dt.rfChannel] = res3 at hw3 ⊢
        obtain ⟨a4, r3⟩ := res3
        try dsimp only at hw3
        rw [hw2, List.append_assoc] at hw3
        rcases r3 with _ | ⟨p3, _ | e3⟩
        · try simp only [Option.isSome_none, Option.isSome_some, Bool.false_eq_true, if_false, if_true]
          exact ⟨4, by omega, hw3⟩
        · try simp only [Option.isSome_none, Option.isSome_some, Bool.false_eq_true, if_false, if_true]
          try dsimp only
          have hw4 := sendAndWait_written a4 [0x05, 0x51, 1, (deviceNumber &&& 0xFF) % 256,
              ((deviceNumber &&& 0xFF00) >>> 8) % 256, dt.deviceType, dt.transmissionType]
          generalize sendAndWait a4 [0x05, 0x51, 1, (deviceNumber &&& 0xFF) % 256,
              ((deviceNumber &&& 0xFF00) >>> 8) % 256, dt.deviceType, dt.transmissionType] = res4 at hw4 ⊢
          obtain ⟨a5, r4⟩ := res4
          try dsimp only at hw4
          rw [hw3, List.append_assoc] at hw4
          rcases r4 with _ | ⟨p4, e4⟩
          · try simp only [Option.isSome_none, Option.isSome_some, Bool.false_eq_true, if_false, if_true]
            exact ⟨5, by omega, hw4⟩
          · try dsimp only
            have hw5 := sendAndWait_written a5 [0x03, 0x43, 1, (dt.channelPeriod &&& 0xFF) % 256,
                ((dt.channelPeriod &&& 0xFF00) >>> 8) % 256]
            generalize sendAndWait a5 [0x03, 0x43, 1, (dt.channelPeriod &&& 0xFF) % 256,
                ((dt.channelPeriod &&& 0xFF00) >>> 8) % 256] = res5 at hw5 ⊢
            obtain ⟨a6, r5⟩ := res5
            try dsimp only at hw5
            rw [hw4, List.append_assoc] at hw5
            rcases r5 with _ | ⟨p5, e5⟩
            · try simp only [Option.isSome_none, Option.isSome_some, Bool.false_eq_true, if_false, if_true]
              exact ⟨6, by omega, hw5⟩
            · try dsimp only
              have hw6 := sendAndWait_written a6 [0x02, 0x44, 1, dt.searchTimeout]
              generalize sendAndWait a6 [0x02, 0x44, 1, dt.searchTimeout] = res6 at hw6 ⊢
              obtain ⟨a7, r6⟩ := res6
              try dsimp only at hw6
              rw [hw5, List.append_assoc] at hw6
              rcases r6 with _ | ⟨p6, e6⟩
              · try simp only [Option.isSome_none, Option.isSome_some, Bool.false_eq_true, if_false, if_true]
                exact ⟨7, by omega, hw6⟩
              · try dsimp only
                have hw7 := sendAndWait_written a7 [0x02, 0x6E, 0, 0xE0]
                generalize sendAndWait a7 [0x02, 0x6E, 0, 0xE0] = res7 at hw7 ⊢
                obtain ⟨a8, r7⟩ := res7
                try dsimp only at hw7
                rw [hw6, List.append_assoc] at hw7
                rcases r7 with _ | ⟨p7, e7⟩
                · try simp only [Option.isSome_none, Option.isSome_some, Bool.false_eq_true, if_false, if_true]
                  exact ⟨8, by omega, hw7⟩
                · try dsimp only
                  have hw8 := sendAndWait_written a8 [0x01, 0x4B, 1]
                  generalize sendAndWait a8 [0x01, 0x4B, 1] = res8 at hw8 ⊢
                  obtain ⟨a9, r8⟩ := res8
                  try dsimp only at hw8
                  rw [hw7, List.append_assoc] at hw8
                  rcases r8 with _ | ⟨p8, e8⟩
                  · try simp only [Option.isSome_none, Option.isSome_some, Bool.false_eq_true, if_false, if_true]
                    exact ⟨9, by omega, hw8⟩
                  · try dsimp only
                    exact ⟨9, by omega, hw8⟩
        · try simp only [Option.isSome_none, Option.isSome_some, Bool.false_eq_true, if_false, if_true]
          exact ⟨4, by omega, hw3⟩
    · try simp only [Option.isSome_none, Option.isSome_some, Bool.false_eq_true, if_false, if_true]
      exact ⟨2, by omega, hw1⟩
  · try simp only [Option.isSome_none, Option.isSome_some, Bool.false_eq_true, if_false, if_true]
    exact ⟨1, by omega, hw0⟩

/-- Claim C20: for every device number (and device profile), each of the nine
commands of `configureAndOpenChannel` and the close-channel command of the
teardown has a first (length) byte equal to the number of payload bytes that
follow the msgId, and the packet `send` builds from it passes all four framing
checks of `parsePacket`; whatever the replies, the packets written by
`configureAndOpenChannel` are those built from an initial segment of the nine
commands, and the teardown writes the packet built from the close-channel
command. -/
theorem command_frames_well_formed (dt : antDeviceType) (deviceNumber : Nat) :
    (commands dt deviceNumber).length = 9 ∧
      List.Forall
        (fun c => c.head? = some (c.length - 2) ∧ passesFraming (sendPacket c) = true ∧
          wellFormed (sendPacket c) = true)
        (commands dt deviceNumber ++ [closeCommand]) ∧
      (∀ a : ant, ∃ n, n ≤ 9 ∧ written (configureAndOpenChannel a dt deviceNumber).1.trace
        = written a.trace ++ ((commands dt deviceNumber).map sendPacket).take n) ∧
      (∀ a : ant, written (mainDeferred a).1.trace = written a.trace ++ [sendPacket closeCommand]) := by
  have key : ∀ (msgId : Nat) (payload : List Nat), payload.length ≤ 52 →
      ((payload.length :: msgId :: payload).head?
          = some ((payload.length :: msgId :: payload).length - 2) ∧
        passesFraming (sendPacket (payload.length :: msgId :: payload)) = true ∧
        wellFormed (sendPacket (payload.length :: msgId :: payload)) = true) := by
    intro msgId payload h
    refine ⟨by simp, ?_, wellFormed_sendPacket msgId payload h⟩
    rw [passesFraming_eq_wellFormed]
    exact wellFormed_sendPacket msgId payload h
  refine ⟨rfl, ?_, fun a => configure_writes_commands a dt deviceNumber, ?_⟩
  · simp only [commands, closeCommand, List.cons_append, List.nil_append, List.forall_cons,
      List.Forall]
    exact ⟨key 0x4A [0x00] (by simp),
      key 0x46 [0x01, 0xB9, 0xA5, 0x21, 0xFB, 0xBD, 0x72, 0xC3, 0x45] (by simp),
      key 0x42 [1, dt.channelType, 1] (by simp),
      key 0x45 [1, dt.rfChannel] (by simp),
      key 0x51 [1, (deviceNumber &&& 0xFF) % 256, ((deviceNumber &&& 0xFF00) >>> 8) % 256,
        dt.deviceType, dt.transmissionType] (by simp),
      key 0x43 [1, (dt.channelPeriod &&& 0xFF) % 256,
        ((dt.channelPeriod &&& 0xFF00) >>> 8) % 256] (by simp),
      key 0x44 [1, dt.searchTimeout] (by simp),
      key 0x6E [0, 0xE0] (by simp),
      key 0x4B [1] (by simp),
      key 0x4C [1] (by simp)⟩
  · intro a
    have hw := sendAndWait_written a [0x01, 0x4C, 1]
    unfold mainDeferred
    generalize sendAndWait a [0x01, 0x4C, 1] = res at hw ⊢
    obtain ⟨b, r⟩ := res
    rcases r with _ | ⟨p, e⟩ <;> exact hw

end HR
